import Mathlib

/-!
Verification of the SeminarChecker repository (src/check_seminars.py and
src/db.py) against its specification.

The Python code is shallowly embedded: pure string manipulation is
translated to executable Lean functions on `String`/`List Char`; the
stateful pieces (the PostgreSQL store of src/db.py, one reconciliation
cycle of `do_check`/`run_check_compute`) are translated to explicit state
passing over a `Store` value.  Network and Discord I/O are abstracted as
oracle inputs: `pages` maps a detail-page URL to the parsed record the
fetch+parse step would produce (`none` = the fetch failed), `sendOk` gives
the outcome of one Discord send, `avail` the outcome of the secondary
register-page check, and the `status*` fields the outcomes of the
status-message upsert.  Regular expressions used by the source
(`-(\d{4})-\d{2}-\d{2}-` and `\b(20\d{2})\b` with `re.search`) are
translated to explicit leftmost-match scanners over `List Char`; word
characters are modelled as ASCII alphanumerics plus underscore.
-/

namespace SeminarChecker

/-- `BASE_URL` of src/check_seminars.py line 28. -/
def BASE_URL : String := "https://pxl-digital.pxl.be"

/-- Python `url.split("?")[0]`: the prefix of the character list before the
first `'?'`. -/
def beforeQ : List Char → List Char
  | [] => []
  | c :: rest => if c == '?' then [] else c :: beforeQ rest

/-- Python `url.rstrip("/")`: drop every trailing `'/'`. -/
def rstripSlash (l : List Char) : List Char :=
  (l.reverse.dropWhile fun c => c == '/').reverse

/-- The branch structure of `normalize_seminar_id` after the query string and
trailing slashes are stripped: keep if the base origin is already a prefix,
prepend the base origin after a leading `'/'`, otherwise return unchanged
(src/check_seminars.py lines 68-70). -/
def normCore (u : List Char) : String :=
  if BASE_URL.toList.isPrefixOf u then String.mk u
  else if u.head? == some '/' then String.mk (BASE_URL.toList ++ u)
  else String.mk u

/-- `normalize_seminar_id` of src/check_seminars.py lines 65-70. -/
def normalize_seminar_id (url : String) : String :=
  normCore (rstripSlash (beforeQ url.toList))

/-- Modelled from the amended claim's words, independently of the embedding
above: strip from the first `?`, strip trailing slashes, keep a URL already
anchored at the base origin, prepend the base origin to a URL starting with
`/`, and return any other URL unchanged. -/
def normalize_seminar_spec (url : String) : String :=
  let u := ((url.toList.takeWhile fun c => c != '?').reverse.dropWhile fun c => c == '/').reverse
  if BASE_URL.toList <+: u then String.mk u
  else if u.take 1 = ['/'] then String.mk (BASE_URL.toList ++ u)
  else String.mk u

/-- Modelled from claim C2's words as stated: like `normalize_seminar_spec`,
but in the final branch the base origin is prepended by plain concatenation
instead of returning the URL unchanged. -/
def normalize_seminar_claim (url : String) : String :=
  let u := ((url.toList.takeWhile fun c => c != '?').reverse.dropWhile fun c => c == '/').reverse
  if BASE_URL.toList <+: u then String.mk u
  else if u.take 1 = ['/'] then String.mk (BASE_URL.toList ++ u)
  else String.mk (BASE_URL.toList ++ u)

/-- Numeric value of a decimal digit character. -/
def digitVal (c : Char) : Nat := c.toNat - '0'.toNat

/-- One anchored attempt of Python `re.search(r"-(\d{4})-\d{2}-\d{2}-", url)`
at the head of the list: `some` the value of the four-digit group when the
pattern matches here. -/
def matchDateAt : List Char → Option Nat
  | '-' :: a :: b :: c :: d :: '-' :: e :: f :: '-' :: g :: h :: '-' :: _ =>
    if a.isDigit && b.isDigit && c.isDigit && d.isDigit
        && e.isDigit && f.isDigit && g.isDigit && h.isDigit then
      some (digitVal a * 1000 + digitVal b * 100 + digitVal c * 10 + digitVal d)
    else none
  | _ => none

/-- `re.search(r"-(\d{4})-\d{2}-\d{2}-", ...)`: leftmost match, scanning
positions left to right. -/
def searchDateYear : List Char → Option Nat
  | [] => none
  | c :: rest =>
    match matchDateAt (c :: rest) with
    | some y => some y
    | none => searchDateYear rest

/-- Python regex word characters, restricted to ASCII: letters, digits and
underscore. -/
def isWordChar (c : Char) : Bool := c.isAlphanum || c == '_'

/-- One anchored attempt of Python `re.search(r"\b(20\d{2})\b", s)` at the
head of the list; `prev` is the character just before this position (`none`
at the start of the string), used for the left word boundary. -/
def matchYearAt (prev : Option Char) : List Char → Option Nat
  | '2' :: '0' :: a :: b :: rest =>
    if a.isDigit && b.isDigit
        && (match prev with | none => true | some p => ! isWordChar p)
        && (match rest with | [] => true | r :: _ => ! isWordChar r) then
      some (2000 + digitVal a * 10 + digitVal b)
    else none
  | _ => none

/-- `re.search(r"\b(20\d{2})\b", ...)`: leftmost match, scanning positions
left to right and tracking the previous character for the word boundary. -/
def searchBareYear (prev : Option Char) : List Char → Option Nat
  | [] => none
  | c :: rest =>
    match matchYearAt prev (c :: rest) with
    | some y => some y
    | none => searchBareYear (some c) rest

/-- Python `a or b` for an optional string `a` and a string default `b`:
`none` and the empty string are falsy. -/
def pyStrOr (a : Option String) (b : String) : String :=
  match a with
  | none => b
  | some s => if s.isEmpty then b else s

/-- Python truthiness of an optional string value. -/
def truthy : Option String → Bool
  | none => false
  | some s => !s.isEmpty

/-- Python `s.strip()`: drop whitespace from both ends (ASCII whitespace;
Python also strips a few rarer code points, which never occur here). -/
def pyStrip (s : String) : String :=
  String.mk (((s.toList.dropWhile Char.isWhitespace).reverse.dropWhile
    Char.isWhitespace).reverse)

/-- Python `s[:n]`: the first `n` characters. -/
def strTake (s : String) (n : Nat) : String := String.mk (s.toList.take n)

/-- Python `s.lower()` (ASCII). -/
def strLower (s : String) : String := String.mk (s.toList.map Char.toLower)


/-- The dict returned by `parse_seminar_page` (src/check_seminars.py lines
174-182), plus the `register_available` key that `do_check` adds before
sending (`none` when absent, as in a freshly parsed record). -/
structure SeminarData where
  url : String
  title : String
  subtitle : Option String
  register_url : Option String
  company : Option String
  specialisation : Option String
  practical : Option String
  register_available : Option Bool := none
  deriving DecidableEq

/-- `get_seminar_year` of src/check_seminars.py lines 185-200: the regex
target is `seminar.get("register_url") or seminar.get("url") or ""`, then
the fallback searches `seminar.get("practical") or ""`. -/
def get_seminar_year (s : SeminarData) : Option Nat :=
  let url := pyStrOr s.register_url (pyStrOr (some s.url) "")
  match searchDateYear url.toList with
  | some y => some y
  | none =>
    let practical := pyStrOr s.practical ""
    searchBareYear none practical.toList

/-- Modelled from claim C6's words as stated: the date pattern is searched in
`registration_url` only (when present), with the bare-year fallback on the
practical text; the record's page URL is never consulted. -/
def get_seminar_year_claim (s : SeminarData) : Option Nat :=
  match (match s.register_url with
         | some r => searchDateYear r.toList
         | none => none) with
  | some y => some y
  | none =>
    match s.practical with
    | some p => searchBareYear none p.toList
    | none => none

/-- Modelled from the amended claim's words: the date pattern is searched in
`registration_url`, or in the record's page URL when `registration_url` is
absent or empty, before falling back to a bare 20xx year in the practical
text. -/
def get_seminar_year_amended (s : SeminarData) : Option Nat :=
  let target :=
    match s.register_url with
    | some r => if r = "" then s.url else r
    | none => s.url
  match searchDateYear target.toList with
  | some y => some y
  | none =>
    match s.practical with
    | some p => searchBareYear none p.toList
    | none => searchBareYear none "".toList

/-- Python `pat in s` substring containment. -/
def strContains (s pat : String) : Bool := decide (pat.toList <:+: s.toList)

/-- `check_register_page_available` of src/check_seminars.py lines 88-112.
The HTTP fetch is abstracted by its outcome: `none` when `requests.get` or
`raise_for_status` raises a `RequestException` (network failure, timeout or
non-2xx status), `some body` the response text otherwise.  The first marker
test keeps Python's precedence `A or (B and C)`. -/
def check_register_page_available (fetchResult : Option String) : Bool :=
  match fetchResult with
  | none => false
  | some body =>
    let html := strLower body
    if strContains html "niet beschikbaar"
        || (strContains html "not available" && strContains html "web application") then
      false
    else if strContains html "registraties" && strContains html "gesloten" then
      false
    else
      true

/-- The zero-width space Discord placeholder of `field_value`. -/
def ZWSP : String := "​"

/-- `field_value` inside `build_discord_embed` (src/check_seminars.py lines
210-213), at the default `max_len = 1024`. -/
def field_value (s : Option String) : String :=
  match s with
  | none => ZWSP
  | some s0 =>
    let t := pyStrip s0
    if t.isEmpty then ZWSP
    else if 1024 < t.length then strTake t 1021 ++ "..." else t

/-- The embed dict built by `build_discord_embed`: a field is
(name, value, inline). -/
structure Embed where
  title : String
  url : String
  color : Nat
  fields : List (String × String × Bool)
  footer : String
  description : Option String
  deriving DecidableEq

/-- `build_discord_embed` of src/check_seminars.py lines 203-236. -/
def build_discord_embed (s : SeminarData) : Embed :=
  let title0 := if s.title.isEmpty then "Seminar" else s.title
  let title1 := if truthy s.subtitle then title0 ++ ": " ++ s.subtitle.getD "" else title0
  let fields :=
    (if truthy s.company then [("Bedrijf", field_value s.company, true)] else [])
      ++ (if truthy s.specialisation then
            [("Specialisatie", field_value s.specialisation, true)] else [])
      ++ (if truthy s.practical then [("Praktisch", field_value s.practical, false)] else [])
  let base : Embed :=
    { title := strTake title1 256
      url := pyStrOr s.register_url s.url
      color := 0x5865F2
      fields := fields
      footer := "PXL-Digital Seminaries 2TIN"
      description := none }
  if truthy s.register_url then
    if s.register_available.getD true then
      { base with
          description := some "**Inschrijven is open!** Klik op de titel om te registreren." }
    else
      { base with
          description := some "**Inschrijven-link gevonden, maar** de registratiepagina is niet beschikbaar of gesloten. Geen ping."
          color := 0xEDB90B }
  else base

/-- One row of the `notified_seminars` table (src/db.py lines 16-22); the
`notified_at` timestamp, set by the database at write time, carries no
information the claims need and is omitted. -/
structure NotifiedEntry where
  seminar_id : String
  seminar_url : Option String
  title : Option String
  deriving DecidableEq

/-- The persistent state of src/db.py: the `notified_seminars` rows in
insertion order and the `status_message_id` key of `bot_state`. -/
structure Store where
  notified : List NotifiedEntry
  status_handle : Option String
  deriving DecidableEq

/-- `get_notified_seminar_ids` of src/db.py lines 64-70 (as the list of ids;
only membership is ever used). -/
def notifiedIds (st : Store) : List String := st.notified.map (·.seminar_id)

/-- `mark_notified` of src/db.py lines 84-101: `INSERT ... ON CONFLICT
(seminar_id) DO NOTHING`, i.e. insert-if-absent. -/
def mark_notified (st : Store) (sid : String) (url title : Option String) : Store :=
  if (notifiedIds st).contains sid then st
  else { st with notified := st.notified ++ [⟨sid, url, title⟩] }

/-- One element of the `to_notify` list built by `run_check_compute`:
`(sid, url, data)`. -/
structure ToNotifyEntry where
  sid : String
  url : String
  data : SeminarData
  deriving DecidableEq

/-- The per-URL loop of `run_check_compute` (src/check_seminars.py lines
370-387), producing `(to_notify, open_count)` in encounter order.  `pages`
composes `fetch_seminar_page` and `parse_seminar_page`: `none` models a
failed fetch (the URL is skipped). -/
def scan (notified : List String) (pages : String → Option SeminarData)
    (current_year : Nat) : List String → List ToNotifyEntry × Nat
  | [] => ([], 0)
  | url :: rest =>
    let r := scan notified pages current_year rest
    let sid := normalize_seminar_id url
    match pages url with
    | none => r
    | some data =>
      if truthy data.register_url then
        let yearSkip :=
          match get_seminar_year data with
          | some y => y != current_year
          | none => false
        if yearSkip then r
        else ((if notified.contains sid then r.1 else ⟨sid, url, data⟩ :: r.1), r.2 + 1)
      else r

/-- The triple returned by `run_check_compute`. -/
structure ComputeResult where
  to_notify : List ToNotifyEntry
  open_count : Nat
  on_list : Nat
  deriving DecidableEq

/-- `run_check_compute` of src/check_seminars.py lines 342-389.  `notified`
is the snapshot `get_notified_seminar_ids()` taken once at the start of the
cycle; `listing = none` models the listing-page fetch raising
`RequestException` (the early `return [], 0, 0`), `some urls` the link list
extracted from the fetched page. -/
def run_check_compute (notified : List String) (listing : Option (List String))
    (pages : String → Option SeminarData) (current_year : Nat) : ComputeResult :=
  match listing with
  | none => ⟨[], 0, 0⟩
  | some urls =>
    if urls.isEmpty then ⟨[], 0, 0⟩
    else
      let r := scan notified pages current_year urls
      ⟨r.1, r.2, urls.length⟩

/-- The availability re-check and ping selection for one record of the
notification loop (src/check_seminars.py lines 412-424): returns the data
dict extended with `register_available` and the `use_ping` string.  `avail`
abstracts `check_register_page_available`, applied to the register URL. -/
def send_action (ping : String) (avail : String → Bool) (data : SeminarData) :
    SeminarData × String :=
  match data.register_url with
  | some r =>
    if r.isEmpty then (data, ping)
    else
      let ia := avail r
      ({ data with register_available := some ia }, if ia then ping else "")
  | none => (data, ping)

/-- The `content` argument of `channel.send` in `_send_seminar_embed_async`
(src/check_seminars.py line 258): the stripped ping, or `None` when the ping
is empty or whitespace. -/
def send_content (use_ping : String) : Option String :=
  if (pyStrip use_ping).isEmpty then none else some (pyStrip use_ping)

/-- One Discord send attempt of the notification loop: the identity and URL
of the record, what was sent, and whether the send succeeded. -/
structure SendEvent where
  sid : String
  url : String
  content : Option String
  embed : Embed
  ok : Bool
  deriving DecidableEq

/-- The outcome of the notification loop: the store after it, the send
attempts in order, and `new_notifications`. -/
structure LoopResult where
  store : Store
  events : List SendEvent
  newCount : Nat
  deriving DecidableEq

/-- The `for sid, url, data in to_notify` loop of `do_check`
(src/check_seminars.py lines 410-431): one send attempt per record,
`mark_notified` and the counter increment exactly on send success.  `sendOk`
abstracts the outcome of `_send_seminar_embed_async`, keyed by the record's
page URL. -/
def notify_loop (ping : String) (avail : String → Bool) (sendOk : String → Bool)
    (st : Store) : List ToNotifyEntry → LoopResult
  | [] => { store := st, events := [], newCount := 0 }
  | e :: rest =>
    let a := send_action ping avail e.data
    let ok := sendOk e.url
    let st1 := if ok then mark_notified st e.sid (some e.url) (some a.1.title) else st
    let res := notify_loop ping avail sendOk st1 rest
    { store := res.store
      events := { sid := e.sid, url := e.url, content := send_content a.2
                  embed := build_discord_embed a.1, ok := ok } :: res.events
      newCount := (if ok then 1 else 0) + res.newCount }

/-- `_update_status_with_bot` (src/check_seminars.py lines 317-339) as its
effect on the store, wrapped in the `try/except` of `do_check` lines
446-449: `resolves` tells whether the stored message id still resolves to a
live message (`false` = the distinct NotFound outcome), `sendOk` whether
sending a fresh status message succeeds.  Every failure path (fetch, edit,
send) leaves the store unchanged. -/
def update_status (resolves : String → Bool) (sendOk : Bool) (newId : String)
    (st : Store) : Store :=
  if truthy st.status_handle then
    if resolves (st.status_handle.getD "") then st
    else if sendOk then { st with status_handle := some newId } else st
  else
    if sendOk then { st with status_handle := some newId } else st

/-- The oracle inputs of one check cycle: what the outside world (listing
page, detail pages, register pages, Discord) does during that cycle. -/
structure CycleInput where
  listing : Option (List String)
  pages : String → Option SeminarData
  current_year : Nat
  channelFound : Bool
  ping : String
  avail : String → Bool
  sendOk : String → Bool
  statusResolves : String → Bool
  statusSendOk : Bool
  statusNewId : String

/-- The observable outcome of one `do_check` cycle. -/
structure CheckResult where
  store : Store
  events : List SendEvent
  newCount : Nat
  deriving DecidableEq

/-- `do_check` of src/check_seminars.py lines 392-452: compute, then (when
the channel resolves) the notification loop, then the status upsert.  The
status embed's counts and the bot presence are display-only and carry no
store effect beyond `update_status`. -/
def do_check (st : Store) (c : CycleInput) : CheckResult :=
  let comp := run_check_compute (notifiedIds st) c.listing c.pages c.current_year
  if !c.channelFound then ⟨st, [], 0⟩
  else
    let res := notify_loop c.ping c.avail c.sendOk st comp.to_notify
    let st2 := update_status c.statusResolves c.statusSendOk c.statusNewId res.store
    ⟨st2, res.events, res.newCount⟩

/-- Any number of cycles run against a store that is not reset between
cycles, collecting every send attempt. -/
def run_cycles (st : Store) : List CycleInput → Store × List SendEvent
  | [] => (st, [])
  | c :: cs =>
    let r := do_check st c
    let rest := run_cycles r.store cs
    (rest.1, r.events ++ rest.2)

/-- The store before any seminar was ever notified. -/
def emptyStore : Store := { notified := [], status_handle := none }

/-- A detail-page URL of the listing and the same URL with a trailing slash:
two spellings of one seminar identity. -/
def uA : String := "https://pxl-digital.pxl.be/a"

/-- The trailing-slash spelling of `uA`. -/
def uB : String := "https://pxl-digital.pxl.be/a/"

/-- A parsed record with an open registration link and no derivable year. -/
def dA : SeminarData :=
  { url := uA, title := "T", subtitle := none, register_url := some "r",
    company := none, specialisation := none, practical := none }

/-- A cycle whose listing carries both spellings of the same seminar, with
every external interaction succeeding. -/
def dupListingCycle : CycleInput :=
  { listing := some [uA, uB]
    pages := fun u => if u == uA || u == uB then some dA else none
    current_year := 2025
    channelFound := true
    ping := "@everyone"
    avail := fun _ => true
    sendOk := fun _ => true
    statusResolves := fun _ => true
    statusSendOk := true
    statusNewId := "1" }

/-- A cycle whose listing-page fetch fails, run with a working Discord
channel and no stored status message. -/
def fetchFailCycle : CycleInput :=
  { listing := none
    pages := fun _ => none
    current_year := 2025
    channelFound := true
    ping := ""
    avail := fun _ => true
    sendOk := fun _ => true
    statusResolves := fun _ => true
    statusSendOk := true
    statusNewId := "123" }

/-- A record whose page URL embeds a date pattern while `register_url` and
`practical` are absent. -/
def c6rec : SeminarData :=
  { url := "x-2024-01-02-y", title := "T", subtitle := none, register_url := none,
    company := none, specialisation := none, practical := none }

/-- An oracle that always answers `true`. -/
def trueOracle : String → Bool := fun _ => true

/-- An oracle that always answers `false`. -/
def falseOracle : String → Bool := fun _ => false

/-- A page oracle serving exactly the record `dA` at `uA`. -/
def c7pages : String → Option SeminarData := fun u => if u == uA then some dA else none

/-- A to-notify entry for the record `dA`. -/
def c8entry : ToNotifyEntry := { sid := "s1", url := uA, data := dA }

/-- A store holding a stale status-message handle and no notified rows. -/
def c9store : Store := { notified := [], status_handle := some "77" }

/-- A register-page fetch oracle on which every fetch raises. -/
def noFetch : String → Option String := fun _ => none

/-- The fetch-fail cycle with every status oracle flipped. -/
def c9cycle : CycleInput :=
  { fetchFailCycle with
      statusResolves := falseOracle
      statusSendOk := false
      statusNewId := "z" }

/-! ## Lemmas about the string machinery -/

theorem string_toList_append (s t : String) : (s ++ t).toList = s.toList ++ t.toList := by
  simp [String.toList]

theorem beforeQ_eq_takeWhile (l : List Char) :
    beforeQ l = l.takeWhile fun c => c != '?' := by
  induction l with
  | nil => rfl
  | cons c rest ih =>
    by_cases h : c = '?'
    · subst h; simp [beforeQ, List.takeWhile_cons]
    · simp [beforeQ, List.takeWhile_cons, h, ih]

theorem beforeQ_append_qmark (l1 l2 : List Char) :
    beforeQ (l1 ++ '?' :: l2) = beforeQ l1 := by
  induction l1 with
  | nil => simp [beforeQ]
  | cons c rest ih => by_cases h : c = '?' <;> simp [beforeQ, h, ih]

theorem beforeQ_of_not_mem : ∀ l : List Char, '?' ∉ l → beforeQ l = l
  | [], _ => rfl
  | c :: rest, h => by
    have hc : ¬ c = '?' := fun e => h (e ▸ List.mem_cons_self c rest)
    simp [beforeQ, hc, beforeQ_of_not_mem rest fun m => h (List.mem_cons_of_mem c m)]

theorem beforeQ_append_of_not_mem (l1 l2 : List Char) (h : '?' ∉ l1) :
    beforeQ (l1 ++ l2) = l1 ++ beforeQ l2 := by
  induction l1 with
  | nil => simp
  | cons c rest ih =>
    have hc : ¬ c = '?' := fun e => h (e ▸ List.mem_cons_self c rest)
    simp [beforeQ, hc, ih fun m => h (List.mem_cons_of_mem c m)]

theorem rstrip_concat_slash (l : List Char) : rstripSlash (l ++ ['/']) = rstripSlash l := by
  simp [rstripSlash, List.reverse_append, List.dropWhile_cons]

theorem rstrip_empty_bridge (l : List Char) :
    rstripSlash l = [] ↔ (l.reverse.dropWhile fun c => c == '/') = [] := by
  simp [rstripSlash]

theorem rstrip_append_of_ne (l1 l2 : List Char) (h : rstripSlash l2 ≠ []) :
    rstripSlash (l1 ++ l2) = l1 ++ rstripSlash l2 := by
  have h2 : ¬ ((l2.reverse.dropWhile fun c => c == '/') = []) :=
    fun e => h ((rstrip_empty_bridge l2).mpr e)
  simp [rstripSlash, List.reverse_append, List.dropWhile_append,
    List.isEmpty_iff, h2]

theorem rstrip_cons (c : Char) (l : List Char) :
    rstripSlash (c :: l) =
      if rstripSlash l = [] then (if c = '/' then [] else [c]) else c :: rstripSlash l := by
  by_cases h : (l.reverse.dropWhile fun x => x == '/') = []
  · rw [if_pos ((rstrip_empty_bridge l).mpr h)]
    by_cases hc : c = '/' <;>
      simp [rstripSlash, List.reverse_cons, List.dropWhile_append, h, hc,
        List.dropWhile_cons]
  · rw [if_neg fun e => h ((rstrip_empty_bridge l).mp e)]
    simp [rstripSlash, List.reverse_cons, List.dropWhile_append, List.isEmpty_iff, h]

theorem isPrefixOf_append_self (l t : List Char) : l.isPrefixOf (l ++ t) = true :=
  (List.isPrefixOf_iff_prefix).mpr (List.prefix_append l t)

theorem base_not_prefixOf_slash (t : List Char) :
    ¬ (BASE_URL.toList.isPrefixOf ('/' :: t) = true) := by
  rw [List.isPrefixOf_iff_prefix]
  rintro ⟨t2, ht⟩
  have h0 : BASE_URL.toList = 'h' :: "ttps://pxl-digital.pxl.be".toList := by decide
  rw [h0, List.cons_append] at ht
  injection ht with h1 h2
  exact absurd h1 (by decide)

theorem head_take_bridge (u : List Char) :
    ((u.head? == some '/') = true) ↔ u.take 1 = ['/'] := by
  cases u with
  | nil => simp
  | cons a l => simp [List.take]

/-! ## Claim C2 -/

/-- Claim C2's counterexample: on an input URL that neither starts with the
base origin nor with `/` (after stripping), `normalize_seminar_id` returns
the URL unchanged, while the claim as stated prepends the base origin. -/
theorem C2_cex :
    normalize_seminar_id "i-talent/x" = "i-talent/x"
    ∧ normalize_seminar_claim "i-talent/x" = "https://pxl-digital.pxl.bei-talent/x"
    ∧ normalize_seminar_id "i-talent/x" ≠ normalize_seminar_claim "i-talent/x" := by
  decide

/-- The branch structure of `normCore`, restated with the propositional
prefix relation and `take 1` in place of the executable tests. -/
theorem normCore_spec (u : List Char) :
    normCore u =
      if BASE_URL.toList <+: u then String.mk u
      else if u.take 1 = ['/'] then String.mk (BASE_URL.toList ++ u)
      else String.mk u := by
  unfold normCore
  by_cases h1 : BASE_URL.toList <+: u
  · rw [if_pos ((List.isPrefixOf_iff_prefix).mpr h1), if_pos h1]
  · rw [if_neg (fun hh : _ = true => h1 ((List.isPrefixOf_iff_prefix).mp hh)), if_neg h1]
    by_cases h2 : u.take 1 = ['/']
    · rw [if_pos ((head_take_bridge u).mpr h2), if_pos h2]
    · rw [if_neg (fun hh => h2 ((head_take_bridge u).mp hh)), if_neg h2]

/-- Claim C2 (amended): for every input URL, `normalize_seminar_id` strips
everything from the first `?` onward, strips all trailing `/`, returns the
result as-is if it starts with the base origin, prepends the base origin if
it starts with `/`, and otherwise returns the result unchanged (no base
origin is prepended). -/
theorem C2_amended (url : String) : normalize_seminar_id url = normalize_seminar_spec url := by
  show normCore (rstripSlash (beforeQ url.toList)) = _
  rw [normCore_spec, beforeQ_eq_takeWhile]
  rfl

/-! ## Claim C3 -/

/-- Claim C3: two URLs that denote the same seminar page and differ only by
query string, trailing slash, or relative-versus-absolute form normalize to
the identical seminar id: appending a query string or a trailing slash never
changes the id, and a root-relative path (leading `/`, nonempty after
stripping) gets the same id as its absolute form. -/
theorem C3_thm (u q p : String)
    (hp1 : p.toList.take 1 = ['/'])
    (hp2 : rstripSlash (beforeQ p.toList) ≠ []) :
    normalize_seminar_id (u ++ "?" ++ q) = normalize_seminar_id u
    ∧ normalize_seminar_id (u ++ "/") = normalize_seminar_id u
    ∧ normalize_seminar_id p = normalize_seminar_id (BASE_URL ++ p) := by
  refine ⟨?_, ?_, ?_⟩
  · unfold normalize_seminar_id
    rw [string_toList_append, string_toList_append,
      show ("?" : String).toList = ['?'] from rfl, List.append_assoc,
      List.singleton_append, beforeQ_append_qmark]
  · unfold normalize_seminar_id
    rw [string_toList_append, show ("/" : String).toList = ['/'] from rfl]
    by_cases hq : '?' ∈ u.toList
    · obtain ⟨l1, l2, hsplit⟩ := List.append_of_mem hq
      rw [hsplit, List.append_assoc, List.cons_append, beforeQ_append_qmark,
        beforeQ_append_qmark]
    · rw [beforeQ_append_of_not_mem _ _ hq,
        show beforeQ ['/'] = ['/'] from rfl, beforeQ_of_not_mem _ hq,
        rstrip_concat_slash]
  · obtain ⟨t, hpt⟩ : ∃ t, p.toList = '/' :: t := by
      cases hp : p.toList with
      | nil => rw [hp] at hp1; simp [List.take] at hp1
      | cons a l =>
        rw [hp] at hp1; simp [List.take] at hp1
        exact ⟨l, by rw [hp1]⟩
    have hbq : beforeQ p.toList = '/' :: beforeQ t := by
      rw [hpt]; simp [beforeQ]
    have hstrip : rstripSlash (beforeQ p.toList) = '/' :: rstripSlash (beforeQ t) := by
      rw [hbq, rstrip_cons]
      by_cases hz : rstripSlash (beforeQ t) = []
      · exfalso
        apply hp2
        rw [hbq, rstrip_cons, if_pos hz, if_pos rfl]
      · rw [if_neg hz]
    have hne : rstripSlash (beforeQ p.toList) ≠ [] := hp2
    unfold normalize_seminar_id
    rw [string_toList_append,
      beforeQ_append_of_not_mem _ _ (show '?' ∉ BASE_URL.toList from by decide),
      rstrip_append_of_ne _ _ hne]
    unfold normCore
    rw [hstrip]
    have hb1 : ¬ (BASE_URL.toList.isPrefixOf ('/' :: rstripSlash (beforeQ t)) = true) :=
      base_not_prefixOf_slash _
    have hb2 : BASE_URL.toList.isPrefixOf
        (BASE_URL.toList ++ '/' :: rstripSlash (beforeQ t)) = true :=
      isPrefixOf_append_self _ _
    rw [if_neg hb1,
      if_pos (show ((('/' :: rstripSlash (beforeQ t)).head? == some '/') = true) from rfl),
      if_pos hb2]

/-- Witness for C3 at concrete URLs: the hypotheses hold for the relative
path `/a`, and the three normalization identities hold at
`https://pxl-digital.pxl.be/s` with query `x=1`, with a trailing slash, and
for `/a` against its absolute form. -/
theorem C3_witness :
    ((("/a" : String).toList.take 1 = ['/'])
      ∧ rstripSlash (beforeQ ("/a" : String).toList) ≠ [])
    ∧ (normalize_seminar_id ("https://pxl-digital.pxl.be/s" ++ "?" ++ "x=1")
        = normalize_seminar_id "https://pxl-digital.pxl.be/s"
      ∧ normalize_seminar_id ("https://pxl-digital.pxl.be/s" ++ "/")
        = normalize_seminar_id "https://pxl-digital.pxl.be/s"
      ∧ normalize_seminar_id "/a" = normalize_seminar_id (BASE_URL ++ "/a")) :=
  ⟨⟨by decide, by decide⟩,
    C3_thm "https://pxl-digital.pxl.be/s" "x=1" "/a" (by decide) (by decide)⟩

/-! ## Claim C6 -/

/-- Claim C6's counterexample: with `register_url` and `practical` both
absent, `get_seminar_year` still derives the year from the date pattern in
the record's page URL, while the claim as stated allows only
`registration_url` then `practical` and so yields no year here. -/
theorem C6_cex :
    get_seminar_year c6rec = some 2024 ∧ get_seminar_year_claim c6rec = none := by
  decide

/-- Claim C6 (amended): `get_seminar_year` parses the year from a
`-YYYY-MM-DD-` date pattern in `registration_url`, or in the record's page
URL when `registration_url` is absent or empty; otherwise it falls back to a
bare 4-digit year in the 2000-2099 range found in the practical text, and
returns `none` when neither yields a match. -/
theorem C6_amended (s : SeminarData) : get_seminar_year s = get_seminar_year_amended s := by
  have hurl : pyStrOr (some s.url) "" = s.url := by
    by_cases h : s.url.isEmpty
    · simp [pyStrOr, h, (String.isEmpty_iff s.url).mp h]
    · simp [pyStrOr, h]
  have hpy : ∀ (r : String) (b : String), pyStrOr (some r) b = if r = "" then b else r := by
    intro r b
    show (if r.isEmpty then b else r) = if r = "" then b else r
    by_cases h : r = ""
    · subst h; rw [if_pos rfl, if_pos (by decide)]
    · rw [if_neg h, if_neg fun e => h ((String.isEmpty_iff r).mp e)]
  have htarget : pyStrOr s.register_url (pyStrOr (some s.url) "")
      = (match s.register_url with
         | some r => if r = "" then s.url else r
         | none => s.url) := by
    rw [hurl]
    cases hr : s.register_url with
    | none => rfl
    | some r => exact hpy r s.url
  have hprac : searchBareYear none (pyStrOr s.practical "").toList
      = (match s.practical with
         | some p => searchBareYear none p.toList
         | none => searchBareYear none ("" : String).toList) := by
    cases hp : s.practical with
    | none => rfl
    | some p =>
      rw [show pyStrOr (some p) "" = p from by
        rw [hpy p ""]
        by_cases h : p = ""
        · rw [if_pos h, h]
        · rw [if_neg h]]
  simp only [get_seminar_year, get_seminar_year_amended]
  rw [htarget, hprac]

/-! ## Lemmas about the store and the notification loop -/

theorem mark_mem (st : Store) (sid : String) (u t : Option String) (s : String) :
    s ∈ notifiedIds (mark_notified st sid u t) ↔ s ∈ notifiedIds st ∨ s = sid := by
  unfold mark_notified
  by_cases h : (notifiedIds st).contains sid = true
  · rw [if_pos h]
    have hm : sid ∈ notifiedIds st := List.elem_iff.mp h
    constructor
    · exact Or.inl
    · rintro (hs | rfl)
      · exact hs
      · exact hm
  · rw [if_neg h]
    simp [notifiedIds]

theorem mark_of_mem (st : Store) (sid : String) (u t : Option String)
    (h : sid ∈ notifiedIds st) : mark_notified st sid u t = st := by
  unfold mark_notified
  rw [if_pos (List.elem_iff.mpr h)]

theorem notify_loop_len (ping : String) (avail sendOk : String → Bool)
    (st : Store) (l : List ToNotifyEntry) :
    (notify_loop ping avail sendOk st l).events.length = l.length := by
  induction l generalizing st with
  | nil => rfl
  | cons e rest ih => simp [notify_loop, ih]

theorem notify_loop_count (ping : String) (avail sendOk : String → Bool)
    (st : Store) (l : List ToNotifyEntry) :
    (notify_loop ping avail sendOk st l).newCount
      = ((notify_loop ping avail sendOk st l).events.filter fun ev => ev.ok).length := by
  induction l generalizing st with
  | nil => rfl
  | cons e rest ih =>
    by_cases hok : sendOk e.url = true
    · simp [notify_loop, hok, List.filter_cons, ih]
      omega
    · simp [notify_loop, hok, List.filter_cons, ih]

theorem notify_loop_mem (ping : String) (avail sendOk : String → Bool)
    (st : Store) (l : List ToNotifyEntry) (s : String) :
    s ∈ notifiedIds (notify_loop ping avail sendOk st l).store
      ↔ s ∈ notifiedIds st
        ∨ ∃ ev, ev ∈ (notify_loop ping avail sendOk st l).events ∧ ev.sid = s ∧ ev.ok = true := by
  induction l generalizing st with
  | nil => simp [notify_loop]
  | cons e rest ih =>
    by_cases hok : sendOk e.url = true
    · simp only [notify_loop, hok, if_pos]
      rw [ih, mark_mem]
      simp only [List.mem_cons]
      constructor
      · rintro ((hs | rfl) | ⟨ev, hev, hsid, hokev⟩)
        · exact Or.inl hs
        · exact Or.inr ⟨_, Or.inl rfl, rfl, rfl⟩
        · exact Or.inr ⟨ev, Or.inr hev, hsid, hokev⟩
      · rintro (hs | ⟨ev, (rfl | hev), hsid, hokev⟩)
        · exact Or.inl (Or.inl hs)
        · exact Or.inl (Or.inr hsid.symm)
        · exact Or.inr ⟨ev, hev, hsid, hokev⟩
    · simp only [notify_loop, hok, if_neg, if_false]
      rw [ih]
      simp only [List.mem_cons]
      constructor
      · rintro (hs | ⟨ev, hev, hsid, hokev⟩)
        · exact Or.inl hs
        · exact Or.inr ⟨ev, Or.inr hev, hsid, hokev⟩
      · rintro (hs | ⟨ev, (rfl | hev), hsid, hokev⟩)
        · exact Or.inl hs
        · simp at hokev
        · exact Or.inr ⟨ev, hev, hsid, hokev⟩

theorem notify_loop_mono (ping : String) (avail sendOk : String → Bool)
    (st : Store) (l : List ToNotifyEntry) (s : String) (h : s ∈ notifiedIds st) :
    s ∈ notifiedIds (notify_loop ping avail sendOk st l).store :=
  (notify_loop_mem ping avail sendOk st l s).mpr (Or.inl h)

/-! ## Claim C4 -/

/-- Claim C4: in the notification loop of one cycle there is one send
attempt per to-notify record (a failed send never stops the loop),
`new_this_run` counts exactly the successful sends, and an identity is
persisted in the store if and only if it was already there or some send for
it succeeded — so on send failure nothing is persisted and the seminar
remains eligible on the next cycle. -/
theorem C4_thm (ping : String) (avail sendOk : String → Bool) (st : Store)
    (entries : List ToNotifyEntry) (s : String) :
    (notify_loop ping avail sendOk st entries).events.length = entries.length
    ∧ (notify_loop ping avail sendOk st entries).newCount
        = ((notify_loop ping avail sendOk st entries).events.filter fun ev => ev.ok).length
    ∧ (s ∈ notifiedIds (notify_loop ping avail sendOk st entries).store
        ↔ s ∈ notifiedIds st
          ∨ ∃ ev, ev ∈ (notify_loop ping avail sendOk st entries).events
              ∧ ev.sid = s ∧ ev.ok = true) :=
  ⟨notify_loop_len ping avail sendOk st entries,
    notify_loop_count ping avail sendOk st entries,
    notify_loop_mem ping avail sendOk st entries s⟩

/-! ## Lemmas about the compute scan -/

theorem scan_not_mem (notified : List String) (pages : String → Option SeminarData)
    (cy : Nat) (urls : List String) (en : ToNotifyEntry)
    (h : en ∈ (scan notified pages cy urls).1) : notified.contains en.sid = false := by
  induction urls with
  | nil => simp [scan] at h
  | cons url rest ih =>
    simp only [scan] at h
    split at h
    · exact ih h
    · split at h
      · split at h
        · exact ih h
        · split at h
          · exact ih h
          · rcases List.mem_cons.mp h with he | hm
            · subst he
              rename_i hc
              exact Bool.eq_false_iff.mpr hc
            · exact ih hm
      · exact ih h

theorem yearSkip_bridge (d : SeminarData) (cy : Nat) :
    ((match get_seminar_year d with
      | some y => y != cy
      | none => false) = true)
      ↔ ¬ (get_seminar_year d = none ∨ get_seminar_year d = some cy) := by
  cases h : get_seminar_year d <;> simp

/-! ## Claim C7 -/

/-- Claim C7: for a detail page that parses to a record with an open
registration link, the record is kept exactly when its derived year is
`none` or equals the current year — it then counts into
`open_for_registration` and, when not yet notified, heads the to-notify
list — and a record whose derived year differs from the current year is
skipped entirely: it is excluded from `open_for_registration` and never
notified, while an undeterminable year never excludes a record whatever the
current year is. -/
theorem C7_thm (notified : List String) (pages : String → Option SeminarData)
    (current_year : Nat) (url : String) (rest : List String) (d : SeminarData)
    (hp : pages url = some d) (hr : truthy d.register_url = true) :
    ((get_seminar_year d = none ∨ get_seminar_year d = some current_year) →
      (scan notified pages current_year (url :: rest)).2
        = (scan notified pages current_year rest).2 + 1)
    ∧ ((get_seminar_year d = none ∨ get_seminar_year d = some current_year) →
        notified.contains (normalize_seminar_id url) = false →
        (scan notified pages current_year (url :: rest)).1
          = ⟨normalize_seminar_id url, url, d⟩ :: (scan notified pages current_year rest).1)
    ∧ (¬ (get_seminar_year d = none ∨ get_seminar_year d = some current_year) →
        scan notified pages current_year (url :: rest)
          = scan notified pages current_year rest) := by
  refine ⟨?_, ?_, ?_⟩
  · intro hy
    have hskip : ¬ ((match get_seminar_year d with
        | some y => y != current_year
        | none => false) = true) := fun e => (yearSkip_bridge d current_year).mp e hy
    simp only [scan, hp, hr, if_pos, if_neg hskip]
  · intro hy hc
    have hskip : ¬ ((match get_seminar_year d with
        | some y => y != current_year
        | none => false) = true) := fun e => (yearSkip_bridge d current_year).mp e hy
    have hc2 : ¬ (notified.contains (normalize_seminar_id url) = true) := by
      rw [hc]; exact Bool.false_ne_true
    simp only [scan, hp, hr, if_pos, if_neg hskip, if_neg hc2]
  · intro hy
    have hskip : (match get_seminar_year d with
        | some y => y != current_year
        | none => false) = true := by
      rcases hnot : get_seminar_year d with _ | y
      · exact absurd (Or.inl hnot) hy
      · simp only []
        by_cases he : y = current_year
        · exact absurd (Or.inr (by rw [hnot, he])) hy
        · simp [he]
    simp only [scan, hp, hr, if_pos, if_pos hskip]

/-- Witness for C7: the page oracle `c7pages` serves the record `dA`, whose
derived year is `none`, at `uA`; with an empty notified set the record is
kept, counted and put at the head of the to-notify list. -/
theorem C7_witness :
    c7pages uA = some dA
    ∧ truthy dA.register_url = true
    ∧ get_seminar_year dA = none
    ∧ (scan [] c7pages 2025 [uA]).2 = (scan [] c7pages 2025 ([] : List String)).2 + 1
    ∧ (scan [] c7pages 2025 [uA]).1
        = ⟨normalize_seminar_id uA, uA, dA⟩ :: (scan [] c7pages 2025 ([] : List String)).1 := by
  have h := C7_thm [] c7pages 2025 uA [] dA (by decide) (by decide)
  have hy : get_seminar_year dA = none := by decide
  exact ⟨by decide, by decide, hy, h.1 (Or.inl hy), h.2.1 (Or.inl hy) (by decide)⟩

/-! ## Lemmas about the status upsert and the full cycle -/

theorem update_status_notified (resolves : String → Bool) (sendOk : Bool)
    (newId : String) (st : Store) :
    (update_status resolves sendOk newId st).notified = st.notified := by
  unfold update_status
  split_ifs <;> rfl

/-! ## Claim C9 -/

/-- Claim C9: the status-message upsert creates a fresh message and stores
its id when no handle is stored; when the stored handle no longer resolves
(the distinct not-found outcome) it creates a replacement and overwrites the
handle; the upsert never touches the notified rows on any path; and the
outcome of a cycle's notification phase (events, counter, notified rows) is
invariant under every status-step oracle, so a status failure never fails
the cycle or undoes delivered notifications. -/
theorem C9_thm
    (stA : Store) (resA : String → Bool) (idA : String)
    (stB : Store) (sidB : String) (resB : String → Bool) (idB : String)
    (stC : Store) (resC : String → Bool) (bC : Bool) (idC : String)
    (stD : Store) (c : CycleInput) (r' : String → Bool) (b' : Bool) (n' : String)
    (hA : stA.status_handle = none)
    (hB1 : stB.status_handle = some sidB) (hB2 : sidB ≠ "") (hB3 : resB sidB = false) :
    (update_status resA true idA stA).status_handle = some idA
    ∧ (update_status resB true idB stB).status_handle = some idB
    ∧ (update_status resC bC idC stC).notified = stC.notified
    ∧ (do_check stD { c with statusResolves := r', statusSendOk := b', statusNewId := n' }).events
        = (do_check stD c).events
    ∧ (do_check stD { c with statusResolves := r', statusSendOk := b', statusNewId := n' }).newCount
        = (do_check stD c).newCount
    ∧ (do_check stD { c with statusResolves := r', statusSendOk := b', statusNewId := n' }).store.notified
        = (do_check stD c).store.notified := by
  refine ⟨?_, ?_, update_status_notified resC bC idC stC, ?_, ?_, ?_⟩
  · simp [update_status, hA, truthy]
  · have hemp : sidB.isEmpty = false :=
      Bool.eq_false_iff.mpr fun e => hB2 ((String.isEmpty_iff sidB).mp e)
    simp [update_status, hB1, truthy, hemp, hB3]
  · cases hc : c.channelFound <;> simp [do_check, hc]
  · cases hc : c.channelFound <;> simp [do_check, hc]
  · cases hc : c.channelFound <;> simp [do_check, hc, update_status_notified]

/-- Witness for C9 at concrete stores: with no stored handle the upsert
stores the fresh id `9`; with the stale handle `77` that no longer resolves
it overwrites the handle with `9`; and on the fetch-fail cycle the
notification outcome ignores the status oracles. -/
theorem C9_witness :
    emptyStore.status_handle = none
    ∧ c9store.status_handle = some "77"
    ∧ falseOracle "77" = false
    ∧ (update_status trueOracle true "9" emptyStore).status_handle = some "9"
    ∧ (update_status falseOracle true "9" c9store).status_handle = some "9"
    ∧ (update_status falseOracle false "9" c9store).notified = c9store.notified
    ∧ (do_check emptyStore c9cycle).events = (do_check emptyStore fetchFailCycle).events
    ∧ (do_check emptyStore c9cycle).store.notified
        = (do_check emptyStore fetchFailCycle).store.notified := by
  have h1 := C9_thm emptyStore trueOracle "9" c9store "77" falseOracle "9"
    c9store falseOracle false "9" emptyStore fetchFailCycle falseOracle false "z"
    rfl rfl (by decide) rfl
  exact ⟨rfl, rfl, rfl, h1.1, h1.2.1, h1.2.2.1, h1.2.2.2.1, h1.2.2.2.2.2⟩

/-! ## Claim C5 -/

/-- Claim C5's counterexample: on the cycle whose listing fetch fails, run
against the empty store, the store does not stay unchanged — the status
update still runs and writes the fresh status-message handle — refuting the
claim's "no store write occurs"; no notification is attempted. -/
theorem C5_cex :
    (do_check emptyStore fetchFailCycle).store ≠ emptyStore
    ∧ (do_check emptyStore fetchFailCycle).store.status_handle = some "123"
    ∧ (do_check emptyStore fetchFailCycle).events = [] := by
  decide

/-- Claim C5 (amended): when the listing-page fetch fails, the cycle's
reconciliation aborts cleanly — no notification is attempted (no send
events), `new_this_run` is zero, and no `NotifiedEntry` is written — but the
status-summary update still runs against the unchanged store and may write
the status handle; the fetch is not retried within the cycle (the cycle's
outcome is exactly the status upsert applied to the untouched store). -/
theorem C5_amended (st : Store) (c : CycleInput)
    (h1 : c.listing = none) (h2 : c.channelFound = true) :
    (do_check st c).events = []
    ∧ (do_check st c).newCount = 0
    ∧ (do_check st c).store.notified = st.notified
    ∧ (do_check st c).store
        = update_status c.statusResolves c.statusSendOk c.statusNewId st := by
  unfold do_check
  rw [h1, h2]
  simp [run_check_compute, notify_loop, update_status_notified]

/-- Witness for C5 on the concrete fetch-fail cycle: the hypotheses hold and
the aborted cycle sends nothing, writes no notified row, and ends in exactly
the status upsert of the untouched empty store. -/
theorem C5_witness :
    fetchFailCycle.listing = none
    ∧ fetchFailCycle.channelFound = true
    ∧ (do_check emptyStore fetchFailCycle).events = []
    ∧ (do_check emptyStore fetchFailCycle).newCount = 0
    ∧ (do_check emptyStore fetchFailCycle).store
        = update_status fetchFailCycle.statusResolves fetchFailCycle.statusSendOk
            fetchFailCycle.statusNewId emptyStore := by
  have h := C5_amended emptyStore fetchFailCycle rfl rfl
  exact ⟨rfl, rfl, h.1, h.2.1, h.2.2.2⟩

/-! ## Lemmas about the embed and the availability re-check -/

theorem truthy_some_ne (r : String) (hne : r ≠ "") : truthy (some r) = true := by
  simp [truthy, Bool.eq_false_iff.mpr fun e => hne ((String.isEmpty_iff r).mp e)]

theorem send_action_eq (ping : String) (avail : String → Bool) (d : SeminarData)
    (r : String) (hreg : d.register_url = some r) (hne : r ≠ "") :
    send_action ping avail d
      = ({ d with register_available := some (avail r) },
          if avail r then ping else "") := by
  have hemp : r.isEmpty = false :=
    Bool.eq_false_iff.mpr fun e => hne ((String.isEmpty_iff r).mp e)
  simp [send_action, hreg, hemp]

theorem build_embed_status (s : SeminarData) (r : String) (b : Bool)
    (hreg : s.register_url = some r) (hne : r ≠ "") (hav : s.register_available = some b) :
    (build_discord_embed s).color = (if b then 0x5865F2 else 0xEDB90B)
    ∧ (build_discord_embed s).description
        = some (if b then "**Inschrijven is open!** Klik op de titel om te registreren."
                else "**Inschrijven-link gevonden, maar** de registratiepagina is niet beschikbaar of gesloten. Geen ping.") := by
  have ht : truthy s.register_url = true := by rw [hreg]; exact truthy_some_ne r hne
  cases b <;> simp [build_discord_embed, ht, hav]

/-! ## Claim C8 -/

/-- Claim C8: for a to-notify record with a registration URL, one send is
attempted either way; when the secondary register-page re-check reports
unavailable, the message is sent with no attention-ping content and a
warning-styled embed (colour `0xEDB90B` and the warning description); when
it reports available, the full configured ping is used and the embed keeps
the regular colour `0x5865F2` and the open-registration description. -/
theorem C8_thm (ping : String) (avail sendOk : String → Bool) (st : Store)
    (e : ToNotifyEntry) (rest : List ToNotifyEntry) (r : String)
    (hreg : e.data.register_url = some r) (hne : r ≠ "") :
    (notify_loop ping avail sendOk st (e :: rest)).events.length = rest.length + 1
    ∧ (notify_loop ping avail sendOk st (e :: rest)).events.head?
        = some { sid := e.sid, url := e.url
                 content := send_content (send_action ping avail e.data).2
                 embed := build_discord_embed (send_action ping avail e.data).1
                 ok := sendOk e.url }
    ∧ (avail r = false →
        send_content (send_action ping avail e.data).2 = none
        ∧ (build_discord_embed (send_action ping avail e.data).1).color = 0xEDB90B
        ∧ (build_discord_embed (send_action ping avail e.data).1).description
            = some "**Inschrijven-link gevonden, maar** de registratiepagina is niet beschikbaar of gesloten. Geen ping.")
    ∧ (avail r = true →
        (send_action ping avail e.data).2 = ping
        ∧ (build_discord_embed (send_action ping avail e.data).1).color = 0x5865F2
        ∧ (build_discord_embed (send_action ping avail e.data).1).description
            = some "**Inschrijven is open!** Klik op de titel om te registreren."
        ∧ (pyStrip ping ≠ "" → send_content (send_action ping avail e.data).2 = some (pyStrip ping))) := by
  refine ⟨?_, ?_, ?_, ?_⟩
  · rw [notify_loop_len]; rfl
  · rfl
  · intro hav
    rw [send_action_eq ping avail e.data r hreg hne, hav]
    have hb := build_embed_status { e.data with register_available := some false } r false
      hreg hne rfl
    rw [if_neg Bool.false_ne_true] at hb
    exact ⟨rfl, hb.1, hb.2⟩
  · intro hav
    rw [send_action_eq ping avail e.data r hreg hne, hav]
    have hb := build_embed_status { e.data with register_available := some true } r true
      hreg hne rfl
    rw [if_pos rfl] at hb
    refine ⟨rfl, hb.1, hb.2, ?_⟩
    intro hp
    have hemp : (pyStrip ping).isEmpty = false :=
      Bool.eq_false_iff.mpr fun ee => hp ((String.isEmpty_iff (pyStrip ping)).mp ee)
    simp [send_content, hemp]

/-- Witness for C8: the record `dA` carries the register link `r`; with the
always-unavailable oracle the attempted send has no ping content and the
warning colour, and with the always-available oracle the full ping
`@everyone` is used with the regular colour. -/
theorem C8_witness :
    dA.register_url = some "r"
    ∧ ("r" : String) ≠ ""
    ∧ send_content (send_action "@everyone" falseOracle c8entry.data).2 = none
    ∧ (build_discord_embed (send_action "@everyone" falseOracle c8entry.data).1).color = 0xEDB90B
    ∧ (send_action "@everyone" trueOracle c8entry.data).2 = "@everyone"
    ∧ (build_discord_embed (send_action "@everyone" trueOracle c8entry.data).1).color = 0x5865F2
    ∧ send_content (send_action "@everyone" trueOracle c8entry.data).2
        = some (pyStrip "@everyone") := by
  have hu := (C8_thm "@everyone" falseOracle trueOracle emptyStore c8entry [] "r"
    rfl (by decide)).2.2.1 rfl
  have ha := (C8_thm "@everyone" trueOracle trueOracle emptyStore c8entry [] "r"
    rfl (by decide)).2.2.2 rfl
  exact ⟨rfl, by decide, hu.1, hu.2.1, ha.1, ha.2.1, ha.2.2.2 (by decide)⟩

/-! ## Claim C10 -/

/-- Claim C10: a registration-page fetch that raises makes
`check_register_page_available` answer `false`; consequently a to-notify
record whose register page is unreachable is still sent, in the muted
no-ping warning form, and on send success its identity is permanently
persisted — and any identity already in the notified snapshot never enters
the to-notify list, so no later full-ping notification for it can happen. -/
theorem C10_thm :
    check_register_page_available none = false
    ∧ (∀ (ping : String) (fetchOutcome : String → Option String) (sendOk : String → Bool)
        (st : Store) (e : ToNotifyEntry) (rest : List ToNotifyEntry) (r : String),
        e.data.register_url = some r → r ≠ "" → fetchOutcome r = none → sendOk e.url = true →
        send_content (send_action ping
            (fun u0 => check_register_page_available (fetchOutcome u0)) e.data).2 = none
        ∧ (build_discord_embed (send_action ping
            (fun u0 => check_register_page_available (fetchOutcome u0)) e.data).1).color = 0xEDB90B
        ∧ e.sid ∈ notifiedIds (notify_loop ping
            (fun u0 => check_register_page_available (fetchOutcome u0)) sendOk st (e :: rest)).store)
    ∧ (∀ (notified : List String) (pages : String → Option SeminarData) (year : Nat)
        (urls : List String) (en : ToNotifyEntry),
        en ∈ (scan notified pages year urls).1 → notified.contains en.sid = false) := by
  refine ⟨rfl, ?_, fun notified pages year urls en h => scan_not_mem notified pages year urls en h⟩
  intro ping fetchOutcome sendOk st e rest r hreg hne hfetch hok
  have hav : (fun u0 => check_register_page_available (fetchOutcome u0)) r = false := by
    show check_register_page_available (fetchOutcome r) = false
    rw [hfetch]
    rfl
  have hsa := send_action_eq ping (fun u0 => check_register_page_available (fetchOutcome u0))
    e.data r hreg hne
  rw [hav] at hsa
  have hb := build_embed_status { e.data with register_available := some false } r false
    hreg hne rfl
  rw [if_neg Bool.false_ne_true] at hb
  refine ⟨by rw [hsa]; rfl, by rw [hsa]; exact hb.1, ?_⟩
  have hmem : e.sid ∈ notifiedIds (if sendOk e.url then
      mark_notified st e.sid (some e.url)
        (some (send_action ping (fun u0 => check_register_page_available (fetchOutcome u0)) e.data).1.title)
      else st) := by
    rw [if_pos hok]
    exact (mark_mem st e.sid _ _ e.sid).mpr (Or.inr rfl)
  exact notify_loop_mono _ _ _ _ rest e.sid hmem

/-- Witness for C10: on the all-failing fetch oracle the re-check answers
`false` for the register URL `r` of `dA`, the attempted send for `c8entry`
is muted and warning-coloured, the identity `s1` ends in the store, and the
concrete scan result of `c7pages` excludes nothing that was notified. -/
theorem C10_witness :
    c8entry.data.register_url = some "r"
    ∧ noFetch "r" = none
    ∧ check_register_page_available none = false
    ∧ send_content (send_action "@everyone"
        (fun u0 => check_register_page_available (noFetch u0)) c8entry.data).2 = none
    ∧ (build_discord_embed (send_action "@everyone"
        (fun u0 => check_register_page_available (noFetch u0)) c8entry.data).1).color = 0xEDB90B
    ∧ c8entry.sid ∈ notifiedIds (notify_loop "@everyone"
        (fun u0 => check_register_page_available (noFetch u0)) trueOracle emptyStore
        [c8entry]).store := by
  have h := C10_thm
  have h2 := h.2.1 "@everyone" noFetch trueOracle emptyStore c8entry [] "r"
    rfl (by decide) rfl rfl
  exact ⟨rfl, rfl, h.1, h2.1, h2.2.1, h2.2.2⟩

/-! ## Claim C1 -/

/-- Claim C1's failing run: a single cycle (followed by a second identical
cycle against the un-reset store) whose listing carries two spellings `uA`
and `uB` of one seminar identity records two successful notification sends
for that identity — the notified-set snapshot is taken once per cycle and
the to-notify list is not deduplicated by seminar id — while the store still
ends with exactly one `NotifiedEntry` row. -/
theorem C1_bug_eval :
    normalize_seminar_id uA = normalize_seminar_id uB
    ∧ ((run_cycles emptyStore [dupListingCycle, dupListingCycle]).2.filter
        fun ev => ev.sid == "https://pxl-digital.pxl.be/a" && ev.ok).length = 2
    ∧ (run_cycles emptyStore [dupListingCycle, dupListingCycle]).1.notified.length = 1 := by
  decide

end SeminarChecker
